import Mathlib

/-!
Shallow embedding of the two source files of this repository:

* `packages/ckeditor5-utils/src/toarray.js` — the `toArray` array-coercion
  utility (modelled over an inductive type of JavaScript values), and
* the `TableCellPropertiesUI` plugin concatenated into the same file — the
  cell-property form synchronizer: `CELL_PROPERTIES`, the default constants,
  `propertyNameToCommandName`, `_fillViewFormFromCommandValues`, `_showView`,
  `_hideView`, the `change` handler registered by
  `_startRespondingToChangesInView`, and the `submit`/`cancel`/Esc handlers
  registered by `_createPropertiesView`.

The plugin's collaborators (editor, command registry, balloon) are external;
their observable interactions are recorded in an effect log on an explicit
state.  The balloon is modelled as holding at most this plugin's view, so
`_isViewVisible` and `_isViewInBalloon` coincide (`inBalloon`); this matches
every execution in which only this plugin adds views to the balloon, which is
the setting of all the properties below.  Batches are identified by the order
of their allocation: `editor.model.createBatch()` returns a fresh identifier,
modelled by the counter `nextBatchId`.
-/

namespace CKE

/-! ### JavaScript values and `toArray` -/

/-- A fragment of JavaScript values, enough to model `toArray`: `undefined`,
`null`, booleans, numbers, strings and (nested) arrays. -/
inductive JSVal where
  | undef
  | null
  | bool (b : Bool)
  | num (n : Int)
  | str (s : String)
  | arr (elems : List JSVal)
deriving Repr

/-- `Array.isArray( data )`. -/
def isJSArray : JSVal → Bool
  | .arr _ => true
  | _ => false

/-- `export default function toArray( data = [] ) { return Array.isArray( data ) ? data : [ data ]; }`

Calling with no argument is calling with `undefined`: the default parameter
`[]` applies exactly when `data` is `undefined`. -/
def toArray : JSVal → JSVal
  | .undef => .arr []
  | .arr xs => .arr xs
  | v => .arr [v]

/-! ### Constants of the plugin -/

def DEFAULT_BORDER_STYLE : String := "none"

def DEFAULT_HORIZONTAL_ALIGNMENT : String := "left"

def DEFAULT_VERTICAL_ALIGNMENT : String := "middle"

def CELL_PROPERTIES : List String :=
  [ "borderStyle", "borderColor", "borderWidth",
    "padding", "backgroundColor",
    "horizontalAlignment", "verticalAlignment" ]

/-- `${ propertyName[ 0 ].toUpperCase() }${ propertyName.slice( 1 ) }`.
On the empty string the JavaScript expression would throw; the code only
applies it to the (nonempty) tracked property names. -/
def capitalizeFirst (p : String) : String :=
  match p.data with
  | [] => ""
  | c :: cs => String.mk (c.toUpper :: cs)

/-- `function propertyNameToCommandName( propertyName ) { return `tableCell...`; }` -/
def propertyNameToCommandName (propertyName : String) : String :=
  "tableCell" ++ capitalizeFirst propertyName

/-! ### Observable effects and plugin state -/

/-- One observable interaction with a collaborator:
`editor.execute( commandName, { value, batch } )`,
`editor.execute( 'undo', batch )`, `view.set( data )`, `balloon.add`,
`balloon.remove`, `view.focus()`, `view.saveButtonView.focus()`,
`editor.editing.view.focus()`. -/
inductive Effect where
  | exec (commandName : String) (value : String) (batch : Option Nat)
  | undo (batch : Option Nat)
  | setForm (data : List (String × String))
  | balloonAdd
  | balloonRemove
  | focusView
  | focusSaveButton
  | focusEditor
deriving Repr, DecidableEq

def Effect.isUndo : Effect → Bool
  | .undo _ => true
  | _ => false

def Effect.isExec : Effect → Bool
  | .exec _ _ _ => true
  | _ => false

def Effect.isSetForm : Effect → Bool
  | .setForm _ => true
  | _ => false

/-- The plugin's state: the `_batch` member (`none` is JavaScript `null`),
the allocation counter for fresh batches, whether the view is in the balloon
(`_isViewInBalloon` = `_isViewVisible` in the single-view balloon model), and
the chronological log of effects. -/
structure UIState where
  batch : Option Nat
  nextBatchId : Nat
  inBalloon : Bool
  log : List Effect
deriving Repr, DecidableEq

/-- State after `init()`: `this._batch = null`, view not in the balloon,
nothing executed yet. -/
def initState : UIState :=
  { batch := none, nextBatchId := 0, inBalloon := false, log := [] }

/-- Record one effect at the end of the log. -/
def emit (e : Effect) (s : UIState) : UIState :=
  { s with log := s.log ++ [e] }

/-! ### Operations -/

/-- JavaScript's `!value` test on a command's reported `value` (`undefined`
or the empty string are the falsy cases for string-valued commands). -/
def isFalsy : Option String → Bool
  | none => true
  | some v => v.isEmpty

/-- `_fillViewFormFromCommandValues()`: for each tracked property read
`editor.commands.get( propertyNameToCommandName( propertyName ) ).value`
(the ambient registry is the argument `commandValue`), substitute the
per-property default when falsy, and build the record passed to
`this.view.set( data )` (keys in `CELL_PROPERTIES` order, as in the
JavaScript object). -/
def fillViewFormFromCommandValues (commandValue : String → Option String) :
    List (String × String) :=
  CELL_PROPERTIES.map fun propertyName =>
    let value := commandValue (propertyNameToCommandName propertyName)
    let value :=
      if isFalsy value then
        if propertyName = "borderStyle" then DEFAULT_BORDER_STYLE
        else if propertyName = "horizontalAlignment" then DEFAULT_HORIZONTAL_ALIGNMENT
        else if propertyName = "verticalAlignment" then DEFAULT_VERTICAL_ALIGNMENT
        else ""
      else value.getD ""
    (propertyName, value)

/-- `_showView()`: no-op when `_isViewVisible`; otherwise add the view to the
balloon (when not already there), create a new batch, fill the form from the
commands, and focus the view. -/
def showView (commandValue : String → Option String) (s : UIState) : UIState :=
  if s.inBalloon then s
  else
    let s := emit .balloonAdd { s with inBalloon := true }
    let s := { s with batch := some s.nextBatchId, nextBatchId := s.nextBatchId + 1 }
    let s := emit (.setForm (fillViewFormFromCommandValues commandValue)) s
    emit .focusView s

/-- `_hideView()`: no-op when `!_isViewInBalloon`; otherwise focus the
editing view, focus the save button, remove the view from the balloon, and
focus the editing view again.  (The two `stopListening` calls target the
`editor.ui#update` and balloon `change:visibleView` listeners only; they do
not touch the view's `change` listener and add nothing to the modelled
observable state.) -/
def hideView (s : UIState) : UIState :=
  if !s.inBalloon then s
  else
    let s1 := emit .focusEditor s
    let s2 := emit .focusSaveButton s1
    let s3 := emit .balloonRemove { s2 with inBalloon := false }
    emit .focusEditor s3

/-- The listener registered once by `_startRespondingToChangesInView()` on
`this.view.on( 'change', ... )`: ignore property names outside
`CELL_PROPERTIES`, otherwise execute the corresponding command with payload
`{ value: newValue, batch: this._batch }`. -/
def viewChangeHandler (propertyName newValue : String) (s : UIState) : UIState :=
  if CELL_PROPERTIES.contains propertyName then
    emit (.exec (propertyNameToCommandName propertyName) newValue s.batch) s
  else s

/-- The `submit` listener of `_createPropertiesView()`: `this._hideView()`. -/
def submitAction (s : UIState) : UIState :=
  hideView s

/-- The `cancel` listener of `_createPropertiesView()`:
`editor.execute( 'undo', this._batch ); this._hideView();`. -/
def cancelAction (s : UIState) : UIState :=
  hideView (emit (.undo s.batch) s)

/-- The `Esc` keystroke handler of `_createPropertiesView()`:
`this._hideView(); cancel();` — where `cancel()` stops the DOM keystroke
event; no `undo` is executed and the form's `cancel` event is not fired. -/
def escKeyAction (s : UIState) : UIState :=
  hideView s

/-- A sequence of `change` events delivered to the view's listener, in
order. -/
def applyChanges : List (String × String) → UIState → UIState
  | [], s => s
  | pv :: rest, s => applyChanges rest (viewChangeHandler pv.1 pv.2 s)

/-- `some x` when `this._batch` holds batch `x`: whether a batch identifier
is in range of the allocation counter (holds in every reachable state; taken
as a hypothesis where freshness of a new batch is asserted). -/
def batchFresh (s : UIState) : Bool :=
  match s.batch with
  | none => true
  | some b => b < s.nextBatchId

/-! ### Concrete command registries used in closed statements -/

/-- A registry in which every command reports the (truthy) value `"x"`. -/
def cvAllX : String → Option String := fun _ => some "x"

/-- A registry in which no command reports a value (`undefined`). -/
def cvNone : String → Option String := fun _ => none

/-- The registry of the fill-from-commands scenario: `borderStyle`,
`horizontalAlignment` and `verticalAlignment` report `''`, every other
tracked property reports `'x'`. -/
def cvThreeEmpty : String → Option String := fun commandName =>
  if commandName = "tableCellBorderStyle" then some ""
  else if commandName = "tableCellHorizontalAlignment" then some ""
  else if commandName = "tableCellVerticalAlignment" then some ""
  else some "x"

/-! ### Theorems -/

/-- C4: `propertyNameToCommandName` is a pure total function (it is a Lean
function); on the seven tracked property names it prefixes `tableCell` and
capitalizes the first letter — in particular `borderWidth` maps to
`tableCellBorderWidth` — and it is injective on that set: the seven command
names are pairwise distinct. -/
theorem propertyNameToCommandName_total_injective :
    propertyNameToCommandName "borderWidth" = "tableCellBorderWidth"
    ∧ CELL_PROPERTIES.map propertyNameToCommandName =
        [ "tableCellBorderStyle", "tableCellBorderColor", "tableCellBorderWidth",
          "tableCellPadding", "tableCellBackgroundColor",
          "tableCellHorizontalAlignment", "tableCellVerticalAlignment" ]
    ∧ (CELL_PROPERTIES.map propertyNameToCommandName).Nodup := by
  refine ⟨rfl, rfl, ?_⟩
  decide

/-- C10: `toArray` returns an array argument unchanged, wraps a non-array
argument in a one-element array, returns the empty array on `undefined` (the
default parameter), and is idempotent. -/
theorem toArray_spec_and_idempotent (xs : List JSVal) (v x : JSVal)
    (hairr : isJSArray v = false) (hundef : v ≠ JSVal.undef) :
    toArray (JSVal.arr xs) = JSVal.arr xs
    ∧ toArray JSVal.undef = JSVal.arr []
    ∧ toArray v = JSVal.arr [v]
    ∧ toArray (toArray x) = toArray x := by
  refine ⟨rfl, rfl, ?_, ?_⟩
  · cases v with
    | undef => exact absurd rfl hundef
    | arr _ => simp [isJSArray] at hairr
    | null => rfl
    | bool _ => rfl
    | num _ => rfl
    | str _ => rfl
  · cases x <;> rfl

/-- Witness for C10 at concrete inputs. -/
theorem toArray_spec_and_idempotent_witness :
    (isJSArray (JSVal.str "a") = false ∧ JSVal.str "a" ≠ JSVal.undef)
    ∧ (toArray (JSVal.arr [JSVal.num 1]) = JSVal.arr [JSVal.num 1]
       ∧ toArray JSVal.undef = JSVal.arr []
       ∧ toArray (JSVal.str "a") = JSVal.arr [JSVal.str "a"]
       ∧ toArray (toArray JSVal.null) = toArray JSVal.null) :=
  ⟨⟨rfl, fun h => JSVal.noConfusion h⟩,
    toArray_spec_and_idempotent [JSVal.num 1] (JSVal.str "a") JSVal.null rfl
      (fun h => JSVal.noConfusion h)⟩

/-- C6: with commands reporting `''` for `borderStyle`,
`horizontalAlignment`, `verticalAlignment` and `'x'` for every other tracked
property, the record pushed into the form substitutes the three specific
defaults and keeps `'x'` elsewhere; with all commands reporting no value the
remaining properties fall back to the empty string; and `_showView` pushes
the full record in exactly one `set()` call. -/
theorem fillViewFormFromCommandValues_defaults :
    fillViewFormFromCommandValues cvThreeEmpty =
      [ ("borderStyle", "none"), ("borderColor", "x"), ("borderWidth", "x"),
        ("padding", "x"), ("backgroundColor", "x"),
        ("horizontalAlignment", "left"), ("verticalAlignment", "middle") ]
    ∧ fillViewFormFromCommandValues cvNone =
      [ ("borderStyle", "none"), ("borderColor", ""), ("borderWidth", ""),
        ("padding", ""), ("backgroundColor", ""),
        ("horizontalAlignment", "left"), ("verticalAlignment", "middle") ]
    ∧ (showView cvThreeEmpty initState).log.filter Effect.isSetForm =
      [ Effect.setForm (fillViewFormFromCommandValues cvThreeEmpty) ] := by
  refine ⟨rfl, rfl, rfl⟩

/-- C8: a `change` event whose property name is outside `CELL_PROPERTIES`
leaves the state unchanged: no command execution is logged. -/
theorem untracked_change_is_ignored (propertyName newValue : String) (s : UIState)
    (h : CELL_PROPERTIES.contains propertyName = false) :
    viewChangeHandler propertyName newValue s = s := by
  have h' : propertyName ∉ CELL_PROPERTIES := by simpa using h
  simp [viewChangeHandler, h']

/-- Witness for C8 at an untracked property name. -/
theorem untracked_change_is_ignored_witness :
    CELL_PROPERTIES.contains "internalDirty" = false
    ∧ viewChangeHandler "internalDirty" "yes" initState = initState :=
  ⟨by decide, untracked_change_is_ignored "internalDirty" "yes" initState (by decide)⟩

/-! ### Helper lemmas about `hideView`, `showView` and `applyChanges` -/

theorem hideView_inBalloon (s : UIState) : (hideView s).inBalloon = false := by
  cases hb : s.inBalloon <;> simp [hideView, emit, hb]

theorem hideView_batch (s : UIState) : (hideView s).batch = s.batch := by
  cases hb : s.inBalloon <;> simp [hideView, emit, hb]

theorem hideView_filter_isUndo (s : UIState) :
    (hideView s).log.filter Effect.isUndo = s.log.filter Effect.isUndo := by
  cases hb : s.inBalloon <;>
    simp [hideView, emit, hb, List.filter_append, Effect.isUndo]

theorem hideView_filter_isExec (s : UIState) :
    (hideView s).log.filter Effect.isExec = s.log.filter Effect.isExec := by
  cases hb : s.inBalloon <;>
    simp [hideView, emit, hb, List.filter_append, Effect.isExec]

theorem hideView_log_of_open (s : UIState) (h : s.inBalloon = true) :
    (hideView s).log = s.log ++
      [Effect.focusEditor, Effect.focusSaveButton, Effect.balloonRemove,
        Effect.focusEditor] := by
  simp [hideView, h, emit, List.append_assoc]

theorem showView_inBalloon (cv : String → Option String) (s : UIState) :
    (showView cv s).inBalloon = true := by
  cases hb : s.inBalloon <;> simp [showView, emit, hb]

theorem viewChangeHandler_batch (p v : String) (s : UIState) :
    (viewChangeHandler p v s).batch = s.batch := by
  by_cases h : p ∈ CELL_PROPERTIES <;> simp [viewChangeHandler, h, emit]

theorem viewChangeHandler_inBalloon (p v : String) (s : UIState) :
    (viewChangeHandler p v s).inBalloon = s.inBalloon := by
  by_cases h : p ∈ CELL_PROPERTIES <;> simp [viewChangeHandler, h, emit]

theorem applyChanges_batch : ∀ (changes : List (String × String)) (s : UIState),
    (applyChanges changes s).batch = s.batch
  | [], _ => rfl
  | pv :: rest, s => by
    rw [applyChanges, applyChanges_batch rest, viewChangeHandler_batch]

theorem applyChanges_inBalloon : ∀ (changes : List (String × String)) (s : UIState),
    (applyChanges changes s).inBalloon = s.inBalloon
  | [], _ => rfl
  | pv :: rest, s => by
    rw [applyChanges, applyChanges_inBalloon rest, viewChangeHandler_inBalloon]

/-- Delivering a sequence of tracked `change` events appends exactly one
command execution per event, each tagged with the state's current batch. -/
theorem applyChanges_tracked : ∀ (changes : List (String × String)) (s : UIState),
    (∀ pv ∈ changes, pv.1 ∈ CELL_PROPERTIES) →
    applyChanges changes s =
      { s with log := s.log ++ changes.map fun pv =>
          Effect.exec (propertyNameToCommandName pv.1) pv.2 s.batch }
  | [], s, _ => by simp [applyChanges]
  | pv :: rest, s, h => by
    have hpv : pv.1 ∈ CELL_PROPERTIES := h pv (List.mem_cons_self _ _)
    have hrest := applyChanges_tracked rest (viewChangeHandler pv.1 pv.2 s)
      (fun q hq => h q (List.mem_cons_of_mem _ hq))
    simp [viewChangeHandler, hpv, emit] at hrest
    simp [applyChanges, viewChangeHandler, hpv, emit, hrest]

theorem filter_isUndo_map_exec (l : List (String × String)) (b : Option Nat) :
    ((l.map fun pv => Effect.exec (propertyNameToCommandName pv.1) pv.2 b).filter
      Effect.isUndo) = [] := by
  induction l with
  | nil => rfl
  | cons x xs ih => simpa [Effect.isUndo, List.filter] using ih

/-- C7: the form's `submit` action ends with the view out of the balloon
(Hidden), executes no `undo` and no further command, and leaves the current
batch pointer untouched (the batch stays applied to the document). -/
theorem submit_hides_leaving_batch_applied (s : UIState) :
    (submitAction s).inBalloon = false
    ∧ (submitAction s).log.filter Effect.isUndo = s.log.filter Effect.isUndo
    ∧ (submitAction s).log.filter Effect.isExec = s.log.filter Effect.isExec
    ∧ (submitAction s).batch = s.batch :=
  ⟨hideView_inBalloon s, hideView_filter_isUndo s, hideView_filter_isExec s,
    hideView_batch s⟩

/-- C2 (amended): the `Esc` keystroke handler performs `_hideView()` only —
the view ends out of the balloon (Hidden), but no `undo` is executed and the
batch is left applied; the document does not return to its pre-edit state. -/
theorem escape_hides_without_undo (s : UIState) :
    (escKeyAction s).inBalloon = false
    ∧ (escKeyAction s).log.filter Effect.isUndo = s.log.filter Effect.isUndo
    ∧ (escKeyAction s).log.filter Effect.isExec = s.log.filter Effect.isExec
    ∧ (escKeyAction s).batch = s.batch :=
  ⟨hideView_inBalloon s, hideView_filter_isUndo s, hideView_filter_isExec s,
    hideView_batch s⟩

/-- Counterexample to C2 as stated: after `show()` and one tracked field
change, pressing Escape hides the form but the session log contains no
`undo` execution at all — the claimed undo of the current batch never
happens. -/
theorem escape_counterexample_no_undo :
    ((escKeyAction (viewChangeHandler "borderWidth" "2px"
        (showView cvAllX initState))).log.filter Effect.isUndo) = []
    ∧ (escKeyAction (viewChangeHandler "borderWidth" "2px"
        (showView cvAllX initState))).inBalloon = false :=
  ⟨rfl, rfl⟩

/-- C5: `_showView` is idempotent — a second call (with any ambient command
values) returns the state of the first call unchanged: the form stays
attached, no new batch is allocated, nothing is refilled or refocused. -/
theorem show_idempotent (cv cv2 : String → Option String) (s : UIState) :
    showView cv2 (showView cv s) = showView cv s
    ∧ (showView cv s).inBalloon = true := by
  refine ⟨?_, showView_inBalloon cv s⟩
  cases hb : s.inBalloon <;> simp [showView, emit, hb]

/-- C9: the view's `change` listener registered at `init()` stays active in
every state — `_hideView` does not detach it — so a tracked `change` event
executes the corresponding command even right after a hide (with the batch
pointer unchanged by the hide), and a tracked `change` event before the
first `show()` executes the command with a `null` batch in its payload. -/
theorem change_listener_survives_hide (propertyName newValue : String) (s : UIState)
    (hp : propertyName ∈ CELL_PROPERTIES) :
    (viewChangeHandler propertyName newValue (hideView s)).log =
      (hideView s).log
        ++ [Effect.exec (propertyNameToCommandName propertyName) newValue s.batch]
    ∧ (hideView s).batch = s.batch
    ∧ (viewChangeHandler "borderWidth" "2px" initState).log =
        [Effect.exec "tableCellBorderWidth" "2px" none] := by
  refine ⟨?_, hideView_batch s, rfl⟩
  simp [viewChangeHandler, hp, emit, hideView_batch s]

/-- Witness for C9 at a concrete tracked property. -/
theorem change_listener_survives_hide_witness :
    "padding" ∈ CELL_PROPERTIES
    ∧ ((viewChangeHandler "padding" "1em" (hideView initState)).log =
        (hideView initState).log
          ++ [Effect.exec (propertyNameToCommandName "padding") "1em" initState.batch]
       ∧ (hideView initState).batch = initState.batch
       ∧ (viewChangeHandler "borderWidth" "2px" initState).log =
           [Effect.exec "tableCellBorderWidth" "2px" none]) :=
  ⟨by decide, change_listener_survives_hide "padding" "1em" initState (by decide)⟩

/-- C1: in a session `show()` → N tracked field changes → `cancel()` starting
from the initial state, the batch allocated by the `show()` is batch `0`;
the final state is Hidden; exactly one undo is executed and it carries that
batch; and the full log shows the undo coming after all N command
executions, which are tagged with that same batch, one per field change in
order. -/
theorem cancel_session_single_undo (cv : String → Option String)
    (changes : List (String × String))
    (h : ∀ pv ∈ changes, pv.1 ∈ CELL_PROPERTIES) :
    (showView cv initState).batch = some 0
    ∧ (cancelAction (applyChanges changes (showView cv initState))).inBalloon = false
    ∧ (cancelAction (applyChanges changes (showView cv initState))).log.filter
        Effect.isUndo = [Effect.undo (some 0)]
    ∧ (cancelAction (applyChanges changes (showView cv initState))).log =
        [Effect.balloonAdd, Effect.setForm (fillViewFormFromCommandValues cv),
          Effect.focusView]
          ++ (changes.map fun pv =>
                Effect.exec (propertyNameToCommandName pv.1) pv.2 (some 0))
          ++ [Effect.undo (some 0), Effect.focusEditor, Effect.focusSaveButton,
              Effect.balloonRemove, Effect.focusEditor] := by
  have hXb : (applyChanges changes (showView cv initState)).batch = some 0 := by
    rw [applyChanges_batch]; rfl
  have hXi : (applyChanges changes (showView cv initState)).inBalloon = true := by
    rw [applyChanges_inBalloon]; rfl
  have hXlog : (applyChanges changes (showView cv initState)).log =
      [Effect.balloonAdd, Effect.setForm (fillViewFormFromCommandValues cv),
        Effect.focusView]
        ++ changes.map (fun pv =>
            Effect.exec (propertyNameToCommandName pv.1) pv.2 (some 0)) := by
    rw [applyChanges_tracked changes _ h]; rfl
  have hYi : (emit (.undo (some 0)) (applyChanges changes (showView cv initState))).inBalloon
      = true := hXi
  have hclog : (cancelAction (applyChanges changes (showView cv initState))).log =
      [Effect.balloonAdd, Effect.setForm (fillViewFormFromCommandValues cv),
        Effect.focusView]
        ++ (changes.map fun pv =>
              Effect.exec (propertyNameToCommandName pv.1) pv.2 (some 0))
        ++ [Effect.undo (some 0), Effect.focusEditor, Effect.focusSaveButton,
            Effect.balloonRemove, Effect.focusEditor] := by
    show (hideView (emit (.undo (applyChanges changes (showView cv initState)).batch)
      (applyChanges changes (showView cv initState)))).log = _
    rw [hXb, hideView_log_of_open _ hYi]
    simp [emit, hXlog, List.append_assoc]
  refine ⟨rfl, hideView_inBalloon _, ?_, hclog⟩
  rw [hclog]
  simp [List.filter_append, filter_isUndo_map_exec, Effect.isUndo, List.filter]

/-- Witness for C1: the concrete session `show()` →
`field-changed('borderWidth','2px')` → `field-changed('padding','5px')` →
`cancel()`. -/
theorem cancel_session_single_undo_witness :
    (∀ pv ∈ ([("borderWidth", "2px"), ("padding", "5px")] : List (String × String)),
      pv.1 ∈ CELL_PROPERTIES)
    ∧ ((showView cvAllX initState).batch = some 0
       ∧ (cancelAction (applyChanges [("borderWidth", "2px"), ("padding", "5px")]
            (showView cvAllX initState))).inBalloon = false
       ∧ (cancelAction (applyChanges [("borderWidth", "2px"), ("padding", "5px")]
            (showView cvAllX initState))).log.filter Effect.isUndo
            = [Effect.undo (some 0)]
       ∧ (cancelAction (applyChanges [("borderWidth", "2px"), ("padding", "5px")]
            (showView cvAllX initState))).log =
          [Effect.balloonAdd,
            Effect.setForm (fillViewFormFromCommandValues cvAllX), Effect.focusView]
            ++ ([("borderWidth", "2px"), ("padding", "5px")].map fun pv =>
                  Effect.exec (propertyNameToCommandName pv.1) pv.2 (some 0))
            ++ [Effect.undo (some 0), Effect.focusEditor, Effect.focusSaveButton,
                Effect.balloonRemove, Effect.focusEditor]) :=
  ⟨by decide,
    cancel_session_single_undo cvAllX [("borderWidth", "2px"), ("padding", "5px")]
      (by decide)⟩

/-- C3: from a Hidden state whose batch pointer is in range of the
allocation counter, `show()` allocates a brand-new batch (the counter value,
then bumps the counter), never reusing the previous batch pointer; the form
becomes attached; and any tracked field change fired after any further
sequence of change events while the form is open executes its command with
exactly that new batch and the new value in the payload. -/
theorem show_allocates_fresh_batch (cv : String → Option String) (s : UIState)
    (changes : List (String × String)) (p v : String)
    (hHidden : s.inBalloon = false) (hFresh : batchFresh s = true)
    (hp : p ∈ CELL_PROPERTIES) :
    (showView cv s).batch = some s.nextBatchId
    ∧ (showView cv s).nextBatchId = s.nextBatchId + 1
    ∧ (showView cv s).inBalloon = true
    ∧ (showView cv s).batch ≠ s.batch
    ∧ (applyChanges changes (showView cv s)).batch = some s.nextBatchId
    ∧ (viewChangeHandler p v (applyChanges changes (showView cv s))).log =
        (applyChanges changes (showView cv s)).log
          ++ [Effect.exec (propertyNameToCommandName p) v (some s.nextBatchId)] := by
  have h1 : (showView cv s).batch = some s.nextBatchId := by
    simp [showView, emit, hHidden]
  have h5 : (applyChanges changes (showView cv s)).batch = some s.nextBatchId := by
    rw [applyChanges_batch, h1]
  refine ⟨h1, by simp [showView, emit, hHidden], showView_inBalloon cv s, ?_, h5, ?_⟩
  · rw [h1]
    cases hsb : s.batch with
    | none => simp
    | some b =>
      simp only [batchFresh, hsb, decide_eq_true_eq] at hFresh
      intro heq
      injection heq with heq'
      omega
  · simp [viewChangeHandler, hp, emit, h5]

/-- Witness for C3: `show()` from the initial state, one interleaved change,
then `field-changed('padding','5px')`. -/
theorem show_allocates_fresh_batch_witness :
    (initState.inBalloon = false ∧ batchFresh initState = true
      ∧ "padding" ∈ CELL_PROPERTIES)
    ∧ ((showView cvNone initState).batch = some initState.nextBatchId
       ∧ (showView cvNone initState).nextBatchId = initState.nextBatchId + 1
       ∧ (showView cvNone initState).inBalloon = true
       ∧ (showView cvNone initState).batch ≠ initState.batch
       ∧ (applyChanges [("borderWidth", "2px")] (showView cvNone initState)).batch
            = some initState.nextBatchId
       ∧ (viewChangeHandler "padding" "5px"
            (applyChanges [("borderWidth", "2px")] (showView cvNone initState))).log =
          (applyChanges [("borderWidth", "2px")] (showView cvNone initState)).log
            ++ [Effect.exec (propertyNameToCommandName "padding") "5px"
                  (some initState.nextBatchId)]) :=
  ⟨⟨rfl, rfl, by decide⟩,
    show_allocates_fresh_batch cvNone initState [("borderWidth", "2px")] "padding" "5px"
      rfl rfl (by decide)⟩

end CKE
